import Mathlib

/-!
Shallow embedding of the Driveboard firmware serial protocol engine
(`src/firmware/src/protocol.c`) and proofs about it.

Doubles are modelled as rationals (the arithmetic the protocol performs on
them is exact addition/subtraction/division by 1000 of values in a small
range).  Machine-integer fields keep their C widths via explicit `% 2^w`
where it matters.  Collaborator calls (planner, stepper, serial) are
recorded as an effect trace; the stepper's stop latch, whose source
(`stepper.c`) is outside the embedded core, is modelled from the spec.
-/

namespace Driveboard

/-- Reference-mode constant `REF_RELATIVE` (protocol.c line 80). -/
abbrev REF_RELATIVE : ℕ := 0

/-- Reference-mode constant `REF_ABSOLUTE` (protocol.c line 81). -/
abbrev REF_ABSOLUTE : ℕ := 1

/-- Buffer capacity `PARAM_MAX_DATA_LENGTH` (protocol.c line 83). -/
abbrev PARAM_MAX_DATA_LENGTH : ℕ := 4

/-- A 3-vector of doubles, standing for the C arrays `double v[3]` indexed
by `X_AXIS`, `Y_AXIS`, `Z_AXIS`. -/
structure Vec3 where
  x : ℚ
  y : ℚ
  z : ℚ
deriving DecidableEq

/-- The `data_t` parameter buffer (protocol.c lines 99-103): four byte
slots and a fill count. -/
structure data_t where
  chars : Fin 4 → ℕ
  count : ℕ
deriving DecidableEq

/-- The decoder `get_curent_value` (protocol.c lines 454-470): interprets
the four buffered bytes as a 28-bit biased integer, least significant
7-bit group first, and restores three decimals. -/
def get_curent_value (p : data_t) : ℚ :=
  ((((p.chars 3 : ℤ) - 128) * 2097152 +
    ((p.chars 2 : ℤ) - 128) * 16384 +
    ((p.chars 1 : ℤ) - 128) * 128 +
    ((p.chars 0 : ℤ) - 128) - 134217728 : ℤ) : ℚ) / 1000

/-- The encoder, quoted in the source as the reference Python
implementation `chars4_from_double` (protocol.c lines 460-465 and
537-545): `num = int(round(num*1000 + 2**27))`, then four bytes of 7 bits
each plus a +128 bias, least significant first. -/
def chars4_from_double (v : ℚ) : Fin 4 → ℕ :=
  let num : ℕ := (round (v * 1000 + 2 ^ 27)).toNat
  ![(num &&& 127) + 128,
    ((num >>> 7) &&& 127) + 128,
    ((num >>> 14) &&& 127) + 128,
    ((num >>> 21) &&& 127) + 128]

end Driveboard

namespace Driveboard

/-- Compile-time configuration (config.h, not under src/): the machine
origin offsets `CONFIG_X/Y/Z_ORIGIN_OFFSET`, the default `CONFIG_FEEDRATE`
and the `VERSION` constant used by the status report, kept abstract. -/
structure Config where
  x_origin_offset : ℚ
  y_origin_offset : ℚ
  z_origin_offset : ℚ
  feedrate : ℚ
  version : ℚ
deriving DecidableEq

/-- The `state_t` session state (protocol.c lines 86-97). -/
structure state_t where
  ref_mode : ℕ
  ref_mode_store : ℕ
  feedrate : ℚ
  intensity : ℕ
  duration : ℚ
  pixel_width : ℚ
  target : Vec3
  offset : Vec3
  offset_store : Vec3
deriving DecidableEq

/-- Stop-error codes (protocol.h, not under src/; the concrete byte values
are irrelevant, only their identity matters). -/
inductive StopCode where
  | STOPERROR_OK
  | STOPERROR_INVALID_MARKER
  | STOPERROR_INVALID_DATA
  | STOPERROR_INVALID_COMMAND
  | STOPERROR_INVALID_PARAMETER
  | STOPERROR_OTHER (c : ℕ)
deriving DecidableEq

/-- Command identities, one per `CMD_*` case of `on_cmd`'s switch
(protocol.c lines 170-231); `CMD_UNKNOWN` stands for any byte hitting the
default branch. The byte values live in protocol.h (not under src/), so
the byte-to-command decoding is kept as an abstract map. -/
inductive Cmd where
  | CMD_NONE
  | CMD_LINE
  | CMD_RASTER
  | CMD_DWELL
  | CMD_REF_RELATIVE
  | CMD_REF_ABSOLUTE
  | CMD_REF_STORE
  | CMD_REF_RESTORE
  | CMD_HOMING
  | CMD_OFFSET_STORE
  | CMD_OFFSET_RESTORE
  | CMD_AIR_ENABLE
  | CMD_AIR_DISABLE
  | CMD_AUX_ENABLE
  | CMD_AUX_DISABLE
  | CMD_UNKNOWN
deriving DecidableEq

/-- Parameter identities, one per `PARAM_*` case of `on_param`'s switch
(protocol.c lines 236-309); `PARAM_UNKNOWN` is the default branch. -/
inductive Param where
  | PARAM_TARGET_X
  | PARAM_TARGET_Y
  | PARAM_TARGET_Z
  | PARAM_FEEDRATE
  | PARAM_INTENSITY
  | PARAM_DURATION
  | PARAM_PIXEL_WIDTH
  | PARAM_OFFSET_X
  | PARAM_OFFSET_Y
  | PARAM_OFFSET_Z
  | PARAM_UNKNOWN
deriving DecidableEq

/-- Single status bytes written with `serial_write` (INFO_* / STATUS_END
values live in protocol.h, abstracted to identities). -/
inductive SerialByte where
  | INFO_IDLE_YES
  | INFO_DOOR_OPEN
  | INFO_CHILLER_OFF
  | STATUS_END
  | stopByte (c : StopCode)
deriving DecidableEq

/-- Keys of `serial_write_param` telegram fields. -/
inductive InfoKey where
  | INFO_POS_X
  | INFO_POS_Y
  | INFO_POS_Z
  | INFO_BUFFER_UNDERRUN
  | INFO_STACK_CLEARANCE
  | INFO_VERSION
  | INFO_OFFSET_X
  | INFO_OFFSET_Y
  | INFO_OFFSET_Z
  | INFO_FEEDRATE
  | INFO_INTENSITY
  | INFO_DURATION
  | INFO_PIXEL_WIDTH
deriving DecidableEq

/-- Observable calls to the collaborator subsystems (planner, stepper,
serial), recorded in order as the protocol code makes them. Calls to
`protocol_idle` made from inside `on_param`'s drain loop are recorded as
`protocol_idle_call` events. -/
inductive Effect where
  | planner_line (x y z feedrate : ℚ) (intensity : ℕ) (pixel_width : ℚ)
  | planner_dwell (duration : ℚ) (intensity : ℕ)
  | planner_control_air_assist (enable : Bool)
  | planner_control_aux_assist (enable : Bool)
  | planner_reset_block_buffer
  | planner_set_position (x y z : ℚ)
  | stepper_homing_cycle
  | stepper_request_stop (code : StopCode)
  | protocol_idle_call
  | sleep_mode
  | serial_write (b : SerialByte)
  | serial_write_param (k : InfoKey) (v : ℚ)
deriving DecidableEq

/-- Per-invocation environment: values returned by collaborator queries.
`pos_x/y/z` are what `stepper_get_position_x/y/z()` return when read;
`processing_polls` models `stepper_processing()` answering true that many
times before answering false (the motion in flight drains eventually);
the remaining fields are the planner/serial/sense queries made by
`protocol_idle`. -/
structure Env where
  pos_x : ℚ
  pos_y : ℚ
  pos_z : ℚ
  processing_polls : ℕ
  planner_blocks_available : Bool
  serial_data_available : Bool
  door_open : Bool
  chiller_off : Bool
  stack_clearance : ℕ
deriving DecidableEq

/-- Conversion applied by the C assignment `st.intensity =
get_curent_value()` (double to uint8_t): truncation of a value in the
representable range. -/
def double2u8 (q : ℚ) : ℕ :=
  q.floor.toNat % 256

/-- The command dispatcher `on_cmd` (protocol.c lines 170-233). -/
def on_cmd (cfg : Config) (st : state_t) (command : Cmd) : state_t × List Effect :=
  match command with
  | .CMD_NONE => (st, [])
  | .CMD_LINE =>
      (st, [.planner_line st.target.x st.target.y st.target.z st.feedrate st.intensity 0])
  | .CMD_RASTER =>
      (st, [.planner_line st.target.x st.target.y st.target.z st.feedrate st.intensity
              st.pixel_width])
  | .CMD_DWELL => (st, [.planner_dwell st.duration st.intensity])
  | .CMD_REF_RELATIVE => ({ st with ref_mode := REF_RELATIVE }, [])
  | .CMD_REF_ABSOLUTE => ({ st with ref_mode := REF_ABSOLUTE }, [])
  | .CMD_REF_STORE => ({ st with ref_mode_store := st.ref_mode }, [])
  | .CMD_REF_RESTORE => ({ st with ref_mode := st.ref_mode_store }, [])
  | .CMD_HOMING =>
      let st' := { st with
        offset := ⟨0, 0, 0⟩,
        target := ⟨cfg.x_origin_offset, cfg.y_origin_offset, cfg.z_origin_offset⟩ }
      (st', [.stepper_homing_cycle,
             .planner_line st'.target.x st'.target.y st'.target.z st'.feedrate 0 0])
  | .CMD_OFFSET_STORE => ({ st with offset_store := st.offset }, [])
  | .CMD_OFFSET_RESTORE => ({ st with offset := st.offset_store }, [])
  | .CMD_AIR_ENABLE => (st, [.planner_control_air_assist true])
  | .CMD_AIR_DISABLE => (st, [.planner_control_air_assist false])
  | .CMD_AUX_ENABLE => (st, [.planner_control_aux_assist true])
  | .CMD_AUX_DISABLE => (st, [.planner_control_aux_assist false])
  | .CMD_UNKNOWN => (st, [.stepper_request_stop .STOPERROR_INVALID_COMMAND])

/-- The parameter setter `on_param` (protocol.c lines 236-309). The
relative offset cases first run `while(stepper_processing())
{ protocol_idle(); }`; each poll answering true is one recorded
`protocol_idle_call`, and the stepper position is read after the drain. -/
def on_param (cfg : Config) (env : Env) (st : state_t) (p : data_t)
    (parameter : Param) : state_t × List Effect :=
  if p.count = PARAM_MAX_DATA_LENGTH then
    match parameter with
    | .PARAM_TARGET_X =>
        if st.ref_mode = REF_ABSOLUTE then
          ({ st with target := { st.target with
              x := get_curent_value p + cfg.x_origin_offset + st.offset.x } }, [])
        else
          ({ st with target := { st.target with
              x := st.target.x + get_curent_value p } }, [])
    | .PARAM_TARGET_Y =>
        if st.ref_mode = REF_ABSOLUTE then
          ({ st with target := { st.target with
              y := get_curent_value p + cfg.y_origin_offset + st.offset.y } }, [])
        else
          ({ st with target := { st.target with
              y := st.target.y + get_curent_value p } }, [])
    | .PARAM_TARGET_Z =>
        if st.ref_mode = REF_ABSOLUTE then
          ({ st with target := { st.target with
              z := get_curent_value p + cfg.z_origin_offset + st.offset.z } }, [])
        else
          ({ st with target := { st.target with
              z := st.target.z + get_curent_value p } }, [])
    | .PARAM_FEEDRATE => ({ st with feedrate := get_curent_value p }, [])
    | .PARAM_INTENSITY => ({ st with intensity := double2u8 (get_curent_value p) }, [])
    | .PARAM_DURATION => ({ st with duration := get_curent_value p }, [])
    | .PARAM_PIXEL_WIDTH => ({ st with pixel_width := get_curent_value p }, [])
    | .PARAM_OFFSET_X =>
        let val := get_curent_value p
        if st.ref_mode = REF_ABSOLUTE then
          ({ st with offset := { st.offset with x := val } }, [])
        else
          ({ st with offset := { st.offset with
              x := env.pos_x - cfg.x_origin_offset + val } },
           List.replicate env.processing_polls .protocol_idle_call)
    | .PARAM_OFFSET_Y =>
        let val := get_curent_value p
        if st.ref_mode = REF_ABSOLUTE then
          ({ st with offset := { st.offset with y := val } }, [])
        else
          ({ st with offset := { st.offset with
              y := env.pos_y - cfg.y_origin_offset + val } },
           List.replicate env.processing_polls .protocol_idle_call)
    | .PARAM_OFFSET_Z =>
        let val := get_curent_value p
        if st.ref_mode = REF_ABSOLUTE then
          ({ st with offset := { st.offset with z := val } }, [])
        else
          ({ st with offset := { st.offset with
              z := env.pos_z - cfg.z_origin_offset + val } },
           List.replicate env.processing_polls .protocol_idle_call)
    | .PARAM_UNKNOWN => (st, [.stepper_request_stop .STOPERROR_INVALID_PARAMETER])
  else
    (st, [.stepper_request_stop .STOPERROR_INVALID_DATA])

/-- The protocol-visible machine: session state, parameter buffer, the
stepper's stop latch, and the report/underrun flags (protocol.c lines
97-108). `stop` holds the active stop code if a stop was requested. -/
structure World where
  st : state_t
  pdata : data_t
  stop : Option StopCode
  status_requested : Bool
  superstatus_requested : Bool
  rx_buffer_underruns : ℕ
  rx_buffer_underruns_reported : Bool
deriving DecidableEq

/-- Modelled from the spec: `stepper_request_stop` (stepper.c is not under
src/) latches the global stop with the given code; the stop then stays
active until an explicit external clear. This folds the stop requests a
handler emitted into the world's stop latch. -/
def latch_stops (w : World) (es : List Effect) : World :=
  es.foldl (fun w' e =>
    match e with
    | .stepper_request_stop c => { w' with stop := some c }
    | _ => w') w

/-- The idle handler `protocol_idle` (protocol.c lines 327-450), for a
build without `ENABLE_INTERLOCKS`: stop recovery (resync target to the
actual position, discard buffered parameter data) followed by status
reporting when a report is pending. -/
def protocol_idle (cfg : Config) (env : Env) (w : World) : World × List Effect :=
  let rec1 :=
    if w.stop.isSome then
      ({ w with
          st := { w.st with target := ⟨env.pos_x, env.pos_y, env.pos_z⟩ },
          pdata := { w.pdata with count := 0 } },
       [Effect.planner_reset_block_buffer,
        Effect.planner_set_position env.pos_x env.pos_y env.pos_z])
    else (w, ([] : List Effect))
  let w1 := rec1.1
  let es1 := rec1.2
  if w1.status_requested || w1.superstatus_requested then
    let idle_es : List Effect :=
      if (!env.planner_blocks_available && !env.serial_data_available) && !w1.stop.isSome
      then [.serial_write .INFO_IDLE_YES, .sleep_mode] else []
    let door_es : List Effect :=
      if env.door_open then [.serial_write .INFO_DOOR_OPEN] else []
    let chiller_es : List Effect :=
      if env.chiller_off then [.serial_write .INFO_CHILLER_OFF] else []
    let stop_code := w1.stop.getD .STOPERROR_OK
    let stop_es : List Effect :=
      if stop_code ≠ .STOPERROR_OK then [.serial_write (.stopByte stop_code)] else []
    let pos_es : List Effect :=
      [.serial_write_param .INFO_POS_X (env.pos_x - cfg.x_origin_offset - w1.st.offset.x),
       .serial_write_param .INFO_POS_Y (env.pos_y - cfg.y_origin_offset - w1.st.offset.y),
       .serial_write_param .INFO_POS_Z (env.pos_z - cfg.z_origin_offset - w1.st.offset.z)]
    let underrun_es : List Effect :=
      if !w1.rx_buffer_underruns_reported
      then [.serial_write_param .INFO_BUFFER_UNDERRUN w1.rx_buffer_underruns] else []
    let stack_es : List Effect :=
      [.serial_write_param .INFO_STACK_CLEARANCE env.stack_clearance]
    let super_es : List Effect :=
      if w1.superstatus_requested then
        [.serial_write_param .INFO_VERSION cfg.version,
         .serial_write_param .INFO_OFFSET_X w1.st.offset.x,
         .serial_write_param .INFO_OFFSET_Y w1.st.offset.y,
         .serial_write_param .INFO_OFFSET_Z w1.st.offset.z,
         .serial_write_param .INFO_FEEDRATE w1.st.feedrate,
         .serial_write_param .INFO_INTENSITY w1.st.intensity,
         .serial_write_param .INFO_DURATION w1.st.duration,
         .serial_write_param .INFO_PIXEL_WIDTH w1.st.pixel_width]
      else []
    let w2 := { w1 with status_requested := false }
    let w3 :=
      if !w2.rx_buffer_underruns_reported
      then { w2 with rx_buffer_underruns_reported := true } else w2
    let w4 :=
      if w3.superstatus_requested then { w3 with superstatus_requested := false } else w3
    (w4, es1 ++ idle_es ++ door_es ++ chiller_es ++ stop_es ++ pos_es ++ underrun_es ++
         stack_es ++ super_es ++ [.serial_write .STATUS_END])
  else
    (w1, es1)

/-- The startup initializer `protocol_init` (protocol.c lines 116-131):
sets the listed session fields and marks both reports as requested.
Fields it does not touch (notably `ref_mode_store` and the stepper's stop
latch) keep their prior values. -/
def protocol_init (cfg : Config) (w : World) : World :=
  { w with
    st := { w.st with
      ref_mode := REF_ABSOLUTE,
      feedrate := cfg.feedrate,
      intensity := 0,
      duration := 0,
      pixel_width := 0,
      target := ⟨cfg.x_origin_offset, cfg.y_origin_offset, cfg.z_origin_offset⟩,
      offset := ⟨0, 0, 0⟩,
      offset_store := ⟨0, 0, 0⟩ },
    status_requested := true,
    superstatus_requested := true,
    rx_buffer_underruns := 0,
    rx_buffer_underruns_reported := true }

/-- One iteration of `protocol_loop` (protocol.c lines 134-166) after
`serial_protocol_read()` returned the byte `chr`. `cmd_of` and `param_of`
are the byte-to-identity decodings fixed by protocol.h (not under src/);
the loop itself only looks at the marker ranges. -/
def protocol_step (cfg : Config) (cmd_of : ℕ → Cmd) (param_of : ℕ → Param)
    (env : Env) (w : World) (chr : ℕ) : World × List Effect :=
  if w.stop.isSome then
    protocol_idle cfg env w
  else
    let step1 : World × List Effect :=
      if chr < 128 then
        let disp : state_t × List Effect :=
          if 64 < chr ∧ chr < 91 then
            on_cmd cfg w.st (cmd_of chr)
          else if 96 < chr ∧ chr < 123 then
            on_param cfg env w.st w.pdata (param_of chr)
          else
            (w.st, [.stepper_request_stop .STOPERROR_INVALID_MARKER])
        (latch_stops
          { w with st := disp.1, pdata := { w.pdata with count := 0 } } disp.2,
         disp.2)
      else
        if h : w.pdata.count < PARAM_MAX_DATA_LENGTH then
          ({ w with pdata :=
              { chars := Function.update w.pdata.chars ⟨w.pdata.count, h⟩ chr,
                count := w.pdata.count + 1 } }, [])
        else
          (latch_stops w [.stepper_request_stop .STOPERROR_INVALID_DATA],
           [.stepper_request_stop .STOPERROR_INVALID_DATA])
    let idle := protocol_idle cfg env step1.1
    (idle.1, step1.2 ++ idle.2)

/-- Masking with 127 keeps the low 7 bits. -/
theorem and127_eq_mod (n : ℕ) : n &&& 127 = n % 128 :=
  Nat.and_pow_two_sub_one_eq_mod n 7

/-- C1: every value representable with three decimals in the protocol's
range, written as `k / 1000` with `k` an integer in
`[-134217728, 134217727]`, encodes to four bytes each in `[128, 255]`,
and `get_curent_value` decodes those bytes back to exactly `k / 1000`. -/
theorem c1_codec_roundtrip (k : ℤ) (h1 : -134217728 ≤ k) (h2 : k ≤ 134217727) :
    (∀ i : Fin 4, 128 ≤ chars4_from_double ((k : ℚ) / 1000) i ∧
                  chars4_from_double ((k : ℚ) / 1000) i ≤ 255) ∧
    get_curent_value ⟨chars4_from_double ((k : ℚ) / 1000), 4⟩ = (k : ℚ) / 1000 := by
  have hcast : ((k : ℚ) / 1000) * 1000 + 2 ^ 27 = ((k + 2 ^ 27 : ℤ) : ℚ) := by
    push_cast
    field_simp
    norm_num
  have hnum : round (((k : ℚ) / 1000) * 1000 + 2 ^ 27) = k + 2 ^ 27 := by
    rw [hcast, round_intCast]
  set n : ℕ := (round (((k : ℚ) / 1000) * 1000 + 2 ^ 27)).toNat with hn
  have h27 : (2 : ℤ) ^ 27 = 134217728 := by norm_num
  have hge : (0 : ℤ) ≤ k + 2 ^ 27 := by rw [h27]; omega
  have hnval : (n : ℤ) = k + 134217728 := by
    rw [hn, hnum, Int.toNat_of_nonneg hge, h27]
  have hnlt : n < 268435456 := by omega
  have e0 : chars4_from_double ((k : ℚ) / 1000) 0 = n % 128 + 128 := by
    show (n &&& 127) + 128 = n % 128 + 128
    rw [and127_eq_mod]
  have e1 : chars4_from_double ((k : ℚ) / 1000) 1 = n / 128 % 128 + 128 := by
    show ((n >>> 7) &&& 127) + 128 = n / 128 % 128 + 128
    rw [and127_eq_mod, Nat.shiftRight_eq_div_pow]
  have e2 : chars4_from_double ((k : ℚ) / 1000) 2 = n / 16384 % 128 + 128 := by
    show ((n >>> 14) &&& 127) + 128 = n / 16384 % 128 + 128
    rw [and127_eq_mod, Nat.shiftRight_eq_div_pow]
  have e3 : chars4_from_double ((k : ℚ) / 1000) 3 = n / 2097152 % 128 + 128 := by
    show ((n >>> 21) &&& 127) + 128 = n / 2097152 % 128 + 128
    rw [and127_eq_mod, Nat.shiftRight_eq_div_pow]
  have eAll : ∀ i : Fin 4, ∃ m : ℕ,
      chars4_from_double ((k : ℚ) / 1000) i = m % 128 + 128 := by
    intro i
    fin_cases i
    exacts [⟨n, e0⟩, ⟨n / 128, e1⟩, ⟨n / 16384, e2⟩, ⟨n / 2097152, e3⟩]
  constructor
  · intro i
    obtain ⟨m, hm⟩ := eAll i
    rw [hm]
    omega
  · have hd : (((n / 2097152 % 128 + 128 : ℕ) : ℤ) - 128) * 2097152 +
        (((n / 16384 % 128 + 128 : ℕ) : ℤ) - 128) * 16384 +
        (((n / 128 % 128 + 128 : ℕ) : ℤ) - 128) * 128 +
        (((n % 128 + 128 : ℕ) : ℤ) - 128) - 134217728 = k := by
      omega
    show ((((⟨chars4_from_double ((k : ℚ) / 1000), 4⟩ : data_t).chars 3 : ℤ) - 128) * 2097152 +
        (((⟨chars4_from_double ((k : ℚ) / 1000), 4⟩ : data_t).chars 2 : ℤ) - 128) * 16384 +
        (((⟨chars4_from_double ((k : ℚ) / 1000), 4⟩ : data_t).chars 1 : ℤ) - 128) * 128 +
        (((⟨chars4_from_double ((k : ℚ) / 1000), 4⟩ : data_t).chars 0 : ℤ) - 128) -
        134217728 : ℤ) / (1000 : ℚ) = (k : ℚ) / 1000
    simp only [show (⟨chars4_from_double ((k : ℚ) / 1000), 4⟩ : data_t).chars =
      chars4_from_double ((k : ℚ) / 1000) from rfl, e0, e1, e2, e3]
    rw [hd]

/-- Witness for C1 at the concrete value 13925.244. -/
theorem c1_codec_roundtrip_witness :
    (-134217728 ≤ (13925244 : ℤ) ∧ (13925244 : ℤ) ≤ 134217727) ∧
    ((∀ i : Fin 4, 128 ≤ chars4_from_double (((13925244 : ℤ) : ℚ) / 1000) i ∧
                   chars4_from_double (((13925244 : ℤ) : ℚ) / 1000) i ≤ 255) ∧
     get_curent_value ⟨chars4_from_double (((13925244 : ℤ) : ℚ) / 1000), 4⟩ =
       ((13925244 : ℤ) : ℚ) / 1000) :=
  ⟨⟨by decide, by decide⟩, c1_codec_roundtrip 13925244 (by decide) (by decide)⟩

/-- Concrete configuration used by the witnesses: origin offsets
(10, 0, 0), default feedrate 6000, version 1701. -/
def cfg0 : Config := ⟨10, 0, 0, 6000, 1701⟩

/-- Concrete environment used by the witnesses: actual position
(12, 5, 0), two polls of motion in flight, everything else quiet. -/
def env0 : Env := ⟨12, 5, 0, 2, false, false, false, false, 100⟩

/-- A full parameter buffer used by the witnesses. -/
def p4 : data_t := ⟨![200, 150, 130, 129], 4⟩

/-- A partially filled parameter buffer used by the witnesses. -/
def p2 : data_t := ⟨![200, 150, 128, 128], 2⟩

/-- A session state in relative reference mode used by the witnesses. -/
def st_rel : state_t :=
  { ref_mode := REF_RELATIVE, ref_mode_store := REF_ABSOLUTE, feedrate := 6000,
    intensity := 0, duration := 0, pixel_width := 0, target := ⟨1, 2, 3⟩,
    offset := ⟨0, 5, 0⟩, offset_store := ⟨0, 0, 0⟩ }

/-- The same session state in absolute reference mode. -/
def st_abs : state_t := { st_rel with ref_mode := REF_ABSOLUTE }

/-- C2: with a full 4-byte buffer decoding to `d`, each target parameter
marker behaves per reference mode: in relative mode it adds `d` to the
pending target on its axis, leaving every other state field unchanged; in
absolute mode it overwrites that axis with
`d + origin_offset + offset` regardless of the prior target value. -/
theorem c2_target_params (cfg : Config) (env : Env) (st : state_t) (p : data_t)
    (hc : p.count = 4) :
    (st.ref_mode = REF_RELATIVE →
      on_param cfg env st p .PARAM_TARGET_X =
        ({ st with target := { st.target with
            x := st.target.x + get_curent_value p } }, []) ∧
      on_param cfg env st p .PARAM_TARGET_Y =
        ({ st with target := { st.target with
            y := st.target.y + get_curent_value p } }, []) ∧
      on_param cfg env st p .PARAM_TARGET_Z =
        ({ st with target := { st.target with
            z := st.target.z + get_curent_value p } }, [])) ∧
    (st.ref_mode = REF_ABSOLUTE →
      on_param cfg env st p .PARAM_TARGET_X =
        ({ st with target := { st.target with
            x := get_curent_value p + cfg.x_origin_offset + st.offset.x } }, []) ∧
      on_param cfg env st p .PARAM_TARGET_Y =
        ({ st with target := { st.target with
            y := get_curent_value p + cfg.y_origin_offset + st.offset.y } }, []) ∧
      on_param cfg env st p .PARAM_TARGET_Z =
        ({ st with target := { st.target with
            z := get_curent_value p + cfg.z_origin_offset + st.offset.z } }, [])) := by
  constructor
  · intro h
    refine ⟨?_, ?_, ?_⟩ <;> simp [on_param, hc, h]
  · intro h
    refine ⟨?_, ?_, ?_⟩ <;> simp [on_param, hc, h]

/-- Witness for C2: the relative target-X update at concrete inputs. -/
theorem c2_target_params_witness :
    p4.count = 4 ∧ st_rel.ref_mode = REF_RELATIVE ∧
    on_param cfg0 env0 st_rel p4 .PARAM_TARGET_X =
      ({ st_rel with target := { st_rel.target with
          x := st_rel.target.x + get_curent_value p4 } }, []) :=
  ⟨rfl, rfl, ((c2_target_params cfg0 env0 st_rel p4 rfl).1 rfl).1⟩

/-- C3: with a full 4-byte buffer decoding to `d`, each offset parameter
marker in absolute mode sets that offset axis to `d` directly with no
collaborator calls; in relative mode it polls `stepper_processing`,
running the idle handler once per poll reporting motion in flight, and
after the drain sets the axis to `actual_position - origin_offset + d`. -/
theorem c3_offset_params (cfg : Config) (env : Env) (st : state_t) (p : data_t)
    (hc : p.count = 4) :
    (st.ref_mode = REF_ABSOLUTE →
      on_param cfg env st p .PARAM_OFFSET_X =
        ({ st with offset := { st.offset with x := get_curent_value p } }, []) ∧
      on_param cfg env st p .PARAM_OFFSET_Y =
        ({ st with offset := { st.offset with y := get_curent_value p } }, []) ∧
      on_param cfg env st p .PARAM_OFFSET_Z =
        ({ st with offset := { st.offset with z := get_curent_value p } }, [])) ∧
    (st.ref_mode = REF_RELATIVE →
      on_param cfg env st p .PARAM_OFFSET_X =
        ({ st with offset := { st.offset with
            x := env.pos_x - cfg.x_origin_offset + get_curent_value p } },
         List.replicate env.processing_polls .protocol_idle_call) ∧
      on_param cfg env st p .PARAM_OFFSET_Y =
        ({ st with offset := { st.offset with
            y := env.pos_y - cfg.y_origin_offset + get_curent_value p } },
         List.replicate env.processing_polls .protocol_idle_call) ∧
      on_param cfg env st p .PARAM_OFFSET_Z =
        ({ st with offset := { st.offset with
            z := env.pos_z - cfg.z_origin_offset + get_curent_value p } },
         List.replicate env.processing_polls .protocol_idle_call)) := by
  constructor
  · intro h
    refine ⟨?_, ?_, ?_⟩ <;> simp [on_param, hc, h]
  · intro h
    refine ⟨?_, ?_, ?_⟩ <;> simp [on_param, hc, h]

/-- Witness for C3: the relative offset-X update at concrete inputs,
with two recorded idle-handler calls from the drain loop. -/
theorem c3_offset_params_witness :
    p4.count = 4 ∧ st_rel.ref_mode = REF_RELATIVE ∧
    on_param cfg0 env0 st_rel p4 .PARAM_OFFSET_X =
      ({ st_rel with offset := { st_rel.offset with
          x := env0.pos_x - cfg0.x_origin_offset + get_curent_value p4 } },
       List.replicate env0.processing_polls .protocol_idle_call) :=
  ⟨rfl, rfl, ((c3_offset_params cfg0 env0 st_rel p4 rfl).2 rfl).1⟩

/-- C6: a parameter marker with a buffer count other than 4 raises
`InvalidData` and leaves the session state untouched, whatever the
parameter identity; with a full buffer, `InvalidParameter` is raised
exactly for the unknown parameter identity. -/
theorem c6_param_count_guard (cfg : Config) (env : Env) (st : state_t) (p : data_t) :
    (p.count ≠ 4 → ∀ parameter : Param,
      on_param cfg env st p parameter =
        (st, [.stepper_request_stop .STOPERROR_INVALID_DATA])) ∧
    (p.count = 4 → ∀ parameter : Param,
      (Effect.stepper_request_stop .STOPERROR_INVALID_PARAMETER ∈
          (on_param cfg env st p parameter).2 ↔
        parameter = .PARAM_UNKNOWN)) := by
  constructor
  · intro h parameter
    simp [on_param, h]
  · intro h parameter
    cases parameter <;>
      simp [on_param, h, List.mem_replicate] <;>
      split <;>
      simp [List.mem_replicate]

/-- Witness for C6: a 2-byte buffer raises `InvalidData` on target-X, and
a full buffer raises `InvalidParameter` exactly on the unknown id. -/
theorem c6_param_count_guard_witness :
    p2.count ≠ 4 ∧
    on_param cfg0 env0 st_rel p2 .PARAM_TARGET_X =
      (st_rel, [.stepper_request_stop .STOPERROR_INVALID_DATA]) ∧
    (Effect.stepper_request_stop .STOPERROR_INVALID_PARAMETER ∈
        (on_param cfg0 env0 st_rel p4 .PARAM_UNKNOWN).2 ↔
      (.PARAM_UNKNOWN : Param) = .PARAM_UNKNOWN) :=
  ⟨by decide,
   (c6_param_count_guard cfg0 env0 st_rel p2).1 (by decide) .PARAM_TARGET_X,
   (c6_param_count_guard cfg0 env0 st_rel p4).2 rfl .PARAM_UNKNOWN⟩

/-- C7: dispatching `CMD_HOMING` runs the homing cycle, zeroes the custom
offset, resets the target to the configured origin offsets, and submits
exactly one planner line to that target with intensity 0 and pixel width
0; no other state field changes. -/
theorem c7_homing (cfg : Config) (st : state_t) :
    on_cmd cfg st .CMD_HOMING =
      ({ st with
          offset := ⟨0, 0, 0⟩,
          target := ⟨cfg.x_origin_offset, cfg.y_origin_offset, cfg.z_origin_offset⟩ },
       [.stepper_homing_cycle,
        .planner_line cfg.x_origin_offset cfg.y_origin_offset cfg.z_origin_offset
          st.feedrate 0 0]) := rfl

/-- Structural facts about the idle handler's world update: it never
touches the session fields other than `target`, never touches the buffer
bytes or the stop latch, and performs the stop recovery (target resync,
buffer discard) exactly when a stop is active. -/
theorem protocol_idle_world (cfg : Config) (env : Env) (w : World) :
    ((protocol_idle cfg env w).1.st.ref_mode = w.st.ref_mode ∧
     (protocol_idle cfg env w).1.st.ref_mode_store = w.st.ref_mode_store ∧
     (protocol_idle cfg env w).1.st.feedrate = w.st.feedrate ∧
     (protocol_idle cfg env w).1.st.intensity = w.st.intensity ∧
     (protocol_idle cfg env w).1.st.duration = w.st.duration ∧
     (protocol_idle cfg env w).1.st.pixel_width = w.st.pixel_width ∧
     (protocol_idle cfg env w).1.st.offset = w.st.offset ∧
     (protocol_idle cfg env w).1.st.offset_store = w.st.offset_store) ∧
    (protocol_idle cfg env w).1.pdata.chars = w.pdata.chars ∧
    (protocol_idle cfg env w).1.stop = w.stop ∧
    (w.stop = none →
      (protocol_idle cfg env w).1.st.target = w.st.target ∧
      (protocol_idle cfg env w).1.pdata.count = w.pdata.count) ∧
    (∀ c, w.stop = some c →
      (protocol_idle cfg env w).1.st.target = ⟨env.pos_x, env.pos_y, env.pos_z⟩ ∧
      (protocol_idle cfg env w).1.pdata.count = 0) := by
  rcases hstop : w.stop with _ | c <;>
    simp [protocol_idle, hstop] <;>
    split_ifs <;>
    simp_all

/-- C9: the command sequence store, relative, store, restore ends with the
reference mode equal to Relative, the value captured by the second store:
the single save slot is overwritten by each store. -/
theorem c9_ref_store_restore (cfg : Config) (st : state_t) :
    ((on_cmd cfg
      ((on_cmd cfg
        ((on_cmd cfg
          ((on_cmd cfg st .CMD_REF_STORE).1)
          .CMD_REF_RELATIVE).1)
        .CMD_REF_STORE).1)
      .CMD_REF_RESTORE).1).ref_mode = REF_RELATIVE := rfl

/-- A world with a pending status report used by the witnesses. -/
def w_rep : World :=
  { st := st_rel, pdata := p2, stop := none, status_requested := true,
    superstatus_requested := false, rx_buffer_underruns := 0,
    rx_buffer_underruns_reported := true }

/-- C8: whenever a report is pending, the telegram the idle handler emits
carries, for each axis, exactly the position value
`actual_position - origin_offset - offset` (the user's offset frame). -/
theorem c8_position_report (cfg : Config) (env : Env) (w : World)
    (h : w.status_requested = true ∨ w.superstatus_requested = true) :
    (∀ v, Effect.serial_write_param .INFO_POS_X v ∈ (protocol_idle cfg env w).2 ↔
        v = env.pos_x - cfg.x_origin_offset - w.st.offset.x) ∧
    (∀ v, Effect.serial_write_param .INFO_POS_Y v ∈ (protocol_idle cfg env w).2 ↔
        v = env.pos_y - cfg.y_origin_offset - w.st.offset.y) ∧
    (∀ v, Effect.serial_write_param .INFO_POS_Z v ∈ (protocol_idle cfg env w).2 ↔
        v = env.pos_z - cfg.z_origin_offset - w.st.offset.z) := by
  rcases hstop : w.stop with _ | c <;>
    obtain h | h := h <;>
      refine ⟨fun v => ?_, fun v => ?_, fun v => ?_⟩ <;>
        simp [protocol_idle, hstop, h] <;>
        split_ifs <;>
        simp

/-- Witness for C8 at the spec's concrete numbers: origin (10,0,0),
offset (0,5,0), actual position (12,5,0) report position (2,0,0). -/
theorem c8_position_report_witness :
    (w_rep.status_requested = true ∨ w_rep.superstatus_requested = true) ∧
    Effect.serial_write_param .INFO_POS_X 2 ∈ (protocol_idle cfg0 env0 w_rep).2 ∧
    Effect.serial_write_param .INFO_POS_Y 0 ∈ (protocol_idle cfg0 env0 w_rep).2 ∧
    Effect.serial_write_param .INFO_POS_Z 0 ∈ (protocol_idle cfg0 env0 w_rep).2 :=
  ⟨Or.inl rfl,
   ((c8_position_report cfg0 env0 w_rep (Or.inl rfl)).1 2).mpr (by norm_num [cfg0, env0, w_rep, st_rel]),
   ((c8_position_report cfg0 env0 w_rep (Or.inl rfl)).2.1 0).mpr (by norm_num [cfg0, env0, w_rep, st_rel]),
   ((c8_position_report cfg0 env0 w_rep (Or.inl rfl)).2.2 0).mpr (by norm_num [cfg0, env0, w_rep, st_rel])⟩

/-- C10: the startup initializer sets the reference mode to Absolute, the
feedrate to the configured default, intensity, duration and pixel width to
zero, the target to the configured origin offsets, both offset vectors to
zero, and marks both report flags as requested, so that the very first
idle-handler call emits a full superstatus telegram (version, motion
defaults, end marker) with no host request. -/
theorem c10_protocol_init (cfg : Config) (env : Env) (w : World) :
    (protocol_init cfg w).st.ref_mode = REF_ABSOLUTE ∧
    (protocol_init cfg w).st.feedrate = cfg.feedrate ∧
    (protocol_init cfg w).st.intensity = 0 ∧
    (protocol_init cfg w).st.duration = 0 ∧
    (protocol_init cfg w).st.pixel_width = 0 ∧
    (protocol_init cfg w).st.target =
      ⟨cfg.x_origin_offset, cfg.y_origin_offset, cfg.z_origin_offset⟩ ∧
    (protocol_init cfg w).st.offset = ⟨0, 0, 0⟩ ∧
    (protocol_init cfg w).st.offset_store = ⟨0, 0, 0⟩ ∧
    (protocol_init cfg w).status_requested = true ∧
    (protocol_init cfg w).superstatus_requested = true ∧
    (protocol_init cfg w).rx_buffer_underruns = 0 ∧
    (protocol_init cfg w).rx_buffer_underruns_reported = true ∧
    Effect.serial_write_param .INFO_VERSION cfg.version ∈
      (protocol_idle cfg env (protocol_init cfg w)).2 ∧
    Effect.serial_write_param .INFO_FEEDRATE cfg.feedrate ∈
      (protocol_idle cfg env (protocol_init cfg w)).2 ∧
    Effect.serial_write_param .INFO_INTENSITY 0 ∈
      (protocol_idle cfg env (protocol_init cfg w)).2 ∧
    Effect.serial_write_param .INFO_DURATION 0 ∈
      (protocol_idle cfg env (protocol_init cfg w)).2 ∧
    Effect.serial_write_param .INFO_PIXEL_WIDTH 0 ∈
      (protocol_idle cfg env (protocol_init cfg w)).2 ∧
    Effect.serial_write .STATUS_END ∈
      (protocol_idle cfg env (protocol_init cfg w)).2 := by
  refine ⟨rfl, rfl, rfl, rfl, rfl, rfl, rfl, rfl, rfl, rfl, rfl, rfl,
    ?_, ?_, ?_, ?_, ?_, ?_⟩ <;>
    rcases hstop : w.stop with _ | c <;>
      simp [protocol_idle, protocol_init, hstop] <;>
      split_ifs <;>
      simp

/-- A byte-to-command decoding used by the witnesses. -/
def cm0 : ℕ → Cmd := fun _ => .CMD_NONE

/-- A byte-to-parameter decoding used by the witnesses. -/
def pm0 : ℕ → Param := fun _ => .PARAM_TARGET_X

/-- A world with no stop and a full parameter buffer, used by the
witnesses. -/
def w4 : World :=
  { st := st_rel, pdata := p4, stop := none, status_requested := false,
    superstatus_requested := false, rx_buffer_underruns := 0,
    rx_buffer_underruns_reported := true }

/-- Folding the stop latch over an effect trace only ever touches the
world's stop field. -/
theorem latch_stops_preserves (w : World) (es : List Effect) :
    (latch_stops w es).st = w.st ∧
    (latch_stops w es).pdata = w.pdata ∧
    (latch_stops w es).status_requested = w.status_requested ∧
    (latch_stops w es).superstatus_requested = w.superstatus_requested ∧
    (latch_stops w es).rx_buffer_underruns = w.rx_buffer_underruns ∧
    (latch_stops w es).rx_buffer_underruns_reported = w.rx_buffer_underruns_reported := by
  induction es generalizing w with
  | nil => exact ⟨rfl, rfl, rfl, rfl, rfl, rfl⟩
  | cons e es ih => cases e <;> simpa [latch_stops, List.foldl_cons] using ih _

/-- C4: with no stop active, a byte in [65,90] is dispatched as a command
and one in [97,122] as a parameter (the step is exactly the corresponding
handler composed with the buffer reset and the idle call); any other byte
below 128 raises `InvalidMarker`; and after any marker byte the parameter
buffer count is 0. -/
theorem c4_marker_dispatch (cfg : Config) (cmd_of : ℕ → Cmd) (param_of : ℕ → Param)
    (env : Env) (w : World) (chr : ℕ) (hstop : w.stop = none) (hchr : chr < 128) :
    ((64 < chr ∧ chr < 91) →
      protocol_step cfg cmd_of param_of env w chr =
        (let disp := on_cmd cfg w.st (cmd_of chr)
         let idle := protocol_idle cfg env
           (latch_stops { w with st := disp.1, pdata := { w.pdata with count := 0 } } disp.2)
         (idle.1, disp.2 ++ idle.2))) ∧
    ((96 < chr ∧ chr < 123) →
      protocol_step cfg cmd_of param_of env w chr =
        (let disp := on_param cfg env w.st w.pdata (param_of chr)
         let idle := protocol_idle cfg env
           (latch_stops { w with st := disp.1, pdata := { w.pdata with count := 0 } } disp.2)
         (idle.1, disp.2 ++ idle.2))) ∧
    (¬(64 < chr ∧ chr < 91) → ¬(96 < chr ∧ chr < 123) →
      Effect.stepper_request_stop .STOPERROR_INVALID_MARKER ∈
        (protocol_step cfg cmd_of param_of env w chr).2 ∧
      (protocol_step cfg cmd_of param_of env w chr).1.stop =
        some .STOPERROR_INVALID_MARKER) ∧
    (protocol_step cfg cmd_of param_of env w chr).1.pdata.count = 0 := by
  have hcount : ∀ w' : World, w'.pdata.count = 0 →
      (protocol_idle cfg env w').1.pdata.count = 0 := by
    intro w' h0
    rcases hs : w'.stop with _ | c
    · rw [((protocol_idle_world cfg env w').2.2.2.1 hs).2, h0]
    · exact ((protocol_idle_world cfg env w').2.2.2.2 c hs).2
  refine ⟨?_, ?_, ?_, ?_⟩
  · rintro ⟨h1, h2⟩
    simp [protocol_step, hstop, hchr, h1, h2]
  · rintro ⟨h1, h2⟩
    have hnc : ¬(64 < chr ∧ chr < 91) := by omega
    simp [protocol_step, hstop, hchr, h1, h2, hnc]
  · intro hnc hnp
    constructor
    · simp [protocol_step, hstop, hchr, hnc, hnp]
    · have : (protocol_step cfg cmd_of param_of env w chr).1 =
          (protocol_idle cfg env
            (latch_stops { w with st := w.st, pdata := { w.pdata with count := 0 } }
              [.stepper_request_stop .STOPERROR_INVALID_MARKER])).1 := by
        simp [protocol_step, hstop, hchr, hnc, hnp]
      rw [this, (protocol_idle_world cfg env _).2.2.1]
      simp [latch_stops]
  · by_cases h1 : 64 < chr ∧ chr < 91
    · have : (protocol_step cfg cmd_of param_of env w chr).1 =
          (protocol_idle cfg env
            (latch_stops { w with st := (on_cmd cfg w.st (cmd_of chr)).1, pdata := { w.pdata with count := 0 } } (on_cmd cfg w.st (cmd_of chr)).2)).1 := by
        simp [protocol_step, hstop, hchr, h1]
      rw [this]
      apply hcount
      rw [(latch_stops_preserves _ _).2.1]
    · by_cases h2 : 96 < chr ∧ chr < 123
      · have : (protocol_step cfg cmd_of param_of env w chr).1 =
            (protocol_idle cfg env
              (latch_stops { w with st := (on_param cfg env w.st w.pdata (param_of chr)).1, pdata := { w.pdata with count := 0 } } (on_param cfg env w.st w.pdata (param_of chr)).2)).1 := by
          simp [protocol_step, hstop, hchr, h1, h2]
        rw [this]
        apply hcount
        rw [(latch_stops_preserves _ _).2.1]
      · have : (protocol_step cfg cmd_of param_of env w chr).1 =
            (protocol_idle cfg env
              (latch_stops { w with st := w.st, pdata := { w.pdata with count := 0 } }
                [.stepper_request_stop .STOPERROR_INVALID_MARKER])).1 := by
          simp [protocol_step, hstop, hchr, h1, h2]
        rw [this]
        apply hcount
        rw [(latch_stops_preserves _ _).2.1]

/-- Witness for C4: a command byte at concrete inputs leaves the buffer
count at 0. -/
theorem c4_marker_dispatch_witness :
    w4.stop = none ∧ (66 : ℕ) < 128 ∧
    (protocol_step cfg0 cm0 pm0 env0 w4 66).1.pdata.count = 0 :=
  ⟨rfl, by decide,
   (c4_marker_dispatch cfg0 cm0 pm0 env0 w4 66 rfl (by decide)).2.2.2⟩

/-- Counterexample for C5 as stated: with a full 4-byte buffer and no stop
active, the 5th data byte does raise `InvalidData`, but the parameter
buffer count does not stay unchanged — the idle call that runs in the same
loop iteration performs the stop recovery and clears it to 0. -/
theorem c5_counterexample :
    w4.pdata.count = 4 ∧ w4.stop = none ∧
    Effect.stepper_request_stop .STOPERROR_INVALID_DATA ∈
      (protocol_step cfg0 cm0 pm0 env0 w4 200).2 ∧
    ¬ (protocol_step cfg0 cm0 pm0 env0 w4 200).1.pdata.count = w4.pdata.count := by
  refine ⟨rfl, rfl, ?_, ?_⟩ <;> decide

/-- C5 (amended): a data byte arriving on a full buffer raises
`InvalidData` as the first recorded effect and is never buffered (the byte
slots are untouched); the stop-recovery idle call in the same iteration
then clears the buffer count to 0 and latches the stop. While the stop
stays active, the main loop ignores every byte — the step result does not
depend on the byte and equals a bare idle call — which preserves all
session fields except resynchronizing the target to the actual position
and keeping the buffer count at 0. -/
theorem c5_stop_behavior (cfg : Config) (cmd_of : ℕ → Cmd) (param_of : ℕ → Param)
    (env : Env) (w : World) (chr : ℕ) :
    (w.stop = none → w.pdata.count = 4 → 128 ≤ chr →
      (∃ es, (protocol_step cfg cmd_of param_of env w chr).2 =
        .stepper_request_stop .STOPERROR_INVALID_DATA :: es) ∧
      (protocol_step cfg cmd_of param_of env w chr).1.pdata.chars = w.pdata.chars ∧
      (protocol_step cfg cmd_of param_of env w chr).1.pdata.count = 0 ∧
      (protocol_step cfg cmd_of param_of env w chr).1.stop =
        some .STOPERROR_INVALID_DATA) ∧
    (∀ c, w.stop = some c →
      (∀ chr' : ℕ, protocol_step cfg cmd_of param_of env w chr =
        protocol_step cfg cmd_of param_of env w chr') ∧
      protocol_step cfg cmd_of param_of env w chr = protocol_idle cfg env w ∧
      (protocol_step cfg cmd_of param_of env w chr).1.st.ref_mode = w.st.ref_mode ∧
      (protocol_step cfg cmd_of param_of env w chr).1.st.offset = w.st.offset ∧
      (protocol_step cfg cmd_of param_of env w chr).1.st.feedrate = w.st.feedrate ∧
      (protocol_step cfg cmd_of param_of env w chr).1.pdata.chars = w.pdata.chars ∧
      (protocol_step cfg cmd_of param_of env w chr).1.pdata.count = 0 ∧
      (protocol_step cfg cmd_of param_of env w chr).1.st.target =
        ⟨env.pos_x, env.pos_y, env.pos_z⟩ ∧
      (protocol_step cfg cmd_of param_of env w chr).1.stop = some c) := by
  constructor
  · intro h0 h4 h128
    have hlt : ¬ chr < 128 := by omega
    have hc4 : ¬ w.pdata.count < PARAM_MAX_DATA_LENGTH := by
      simp [PARAM_MAX_DATA_LENGTH, h4]
    have hstep : protocol_step cfg cmd_of param_of env w chr =
        ((protocol_idle cfg env { w with stop := some .STOPERROR_INVALID_DATA }).1,
         .stepper_request_stop .STOPERROR_INVALID_DATA ::
           (protocol_idle cfg env { w with stop := some .STOPERROR_INVALID_DATA }).2) := by
      simp [protocol_step, h0, hlt, hc4, latch_stops]
    refine ⟨⟨(protocol_idle cfg env { w with stop := some .STOPERROR_INVALID_DATA }).2,
        by rw [hstep]⟩, ?_, ?_, ?_⟩
    · rw [hstep, (protocol_idle_world cfg env _).2.1]
    · rw [hstep]
      exact ((protocol_idle_world cfg env _).2.2.2.2 _ rfl).2
    · rw [hstep, (protocol_idle_world cfg env _).2.2.1]
  · intro c hc
    have hstep2 : ∀ ch : ℕ, protocol_step cfg cmd_of param_of env w ch =
        protocol_idle cfg env w := by
      intro ch
      simp [protocol_step, hc]
    refine ⟨fun chr' => by rw [hstep2, hstep2], hstep2 chr, ?_, ?_, ?_, ?_, ?_, ?_, ?_⟩
    · rw [hstep2]
      exact (protocol_idle_world cfg env w).1.1
    · rw [hstep2]
      exact (protocol_idle_world cfg env w).1.2.2.2.2.2.2.1
    · rw [hstep2]
      exact (protocol_idle_world cfg env w).1.2.2.1
    · rw [hstep2]
      exact (protocol_idle_world cfg env w).2.1
    · rw [hstep2]
      exact ((protocol_idle_world cfg env w).2.2.2.2 c hc).2
    · rw [hstep2]
      exact ((protocol_idle_world cfg env w).2.2.2.2 c hc).1
    · rw [hstep2, (protocol_idle_world cfg env w).2.2.1]
      exact hc

/-- Witness for C5 (amended) at concrete inputs. -/
theorem c5_stop_behavior_witness :
    w4.stop = none ∧ w4.pdata.count = 4 ∧ (128 : ℕ) ≤ 200 ∧
    (protocol_step cfg0 cm0 pm0 env0 w4 200).1.pdata.count = 0 ∧
    (protocol_step cfg0 cm0 pm0 env0 w4 200).1.stop =
      some .STOPERROR_INVALID_DATA :=
  ⟨rfl, rfl, by decide,
   ((c5_stop_behavior cfg0 cm0 pm0 env0 w4 200).1 rfl rfl (by decide)).2.2.1,
   ((c5_stop_behavior cfg0 cm0 pm0 env0 w4 200).1 rfl rfl (by decide)).2.2.2⟩

end Driveboard
